import Mathlib

/-!
Verification of the defi-analyzer transaction-retrieval and cross-comparison
pipeline (TypeScript sources: `src/utils/api.ts`, `src/tools/transactions.ts`,
`src/tools/comparison.ts`, `src/tools/report.ts`).

Modelling conventions:
- JavaScript numbers are modelled as exact rationals (`ℚ`); values produced by
  `parseInt` are modelled as integers (`ℤ`).
- `Math.round x` is `⌊x + 1/2⌋` (JS rounds half toward positive infinity).
- `Math.random()` draws are passed explicitly as an input stream
  `rands : Nat → ℚ`, one draw per mapped row.
- The current clock (`new Date()`) is passed explicitly: `now` for defaults
  substituted while mapping provider rows, `genTime` for the
  `reportGeneratedAt` stamp.
- Outbound quote calls are modelled by `quotes : Nat → Option Quote`, indexed
  by the position of the transaction in the processed list; `none` is a quote
  call that throws (and is caught by the per-transaction handler).
- `Array.prototype.sort` (ES2019+) is a stable sort; it is modelled by a
  stable insertion sort on an integer key.
- Each recommendation string pushed by the code is modelled by a distinct
  constructor of an inductive type carrying the interpolated numeric values.
-/

/-- JavaScript `Math.round`: half-up rounding toward positive infinity. -/
def roundJS (x : ℚ) : ℤ := ⌊x + 1/2⌋

/-- The `Math.round(x * 100) / 100` two-decimal rounding idiom. -/
def round2 (x : ℚ) : ℚ := (roundJS (x * 100) : ℚ) / 100

/-- Character-list test for `startsWith`. -/
def startsWithChars : List Char → List Char → Bool
  | [], _ => true
  | _ :: _, [] => false
  | p :: ps, c :: cs => p = c && startsWithChars ps cs

/-- Character-list test for JavaScript `String.prototype.includes`. -/
def containsChars (pat : List Char) : List Char → Bool
  | [] => pat.isEmpty
  | c :: rest => startsWithChars pat (c :: rest) || containsChars pat rest

/-- JavaScript `s.includes(pat)` on Lean strings. -/
def strIncludes (s pat : String) : Bool := containsChars pat.data s.data

/-- JavaScript `w.startsWith('0x')`. -/
def startsWith0x (w : String) : Bool :=
  match w.data with
  | '0' :: 'x' :: _ => true
  | _ => false

/-- JavaScript string-or-default `s || d` (empty string is falsy). -/
def jsOrStr (o : Option String) (d : String) : String :=
  match o with
  | some s => if s = "" then d else s
  | none => d

/-- Stable insertion placing `x` before the first element whose key is at
most `key x` (models one step of a stable descending sort). -/
def insertByKeyDesc {α : Type} (key : α → ℤ) (x : α) : List α → List α
  | [] => [x]
  | y :: ys => if key y ≤ key x then x :: y :: ys else y :: insertByKeyDesc key x ys

/-- Stable sort, descending by an integer key: the unique output of the
ES2019 stable `Array.prototype.sort` under comparator `(a, b) => key b - key a`. -/
def sortByKeyDesc {α : Type} (key : α → ℤ) : List α → List α
  | [] => []
  | x :: xs => insertByKeyDesc key x (sortByKeyDesc key xs)

/-- First element of a list attaining the maximal key (earliest wins ties). -/
def firstMaxBy {α : Type} (key : α → ℤ) : List α → Option α
  | [] => none
  | x :: xs =>
    match firstMaxBy key xs with
    | none => some x
    | some m => if key m ≤ key x then some x else some m

theorem mem_insertByKeyDesc {α : Type} (key : α → ℤ) (x : α) (l : List α) (a : α) :
    a ∈ insertByKeyDesc key x l ↔ a = x ∨ a ∈ l := by
  induction l with
  | nil => simp [insertByKeyDesc]
  | cons y ys ih =>
    simp only [insertByKeyDesc]
    split
    · simp
    · simp only [List.mem_cons, ih]
      tauto

theorem mem_sortByKeyDesc {α : Type} (key : α → ℤ) (l : List α) (a : α) :
    a ∈ sortByKeyDesc key l ↔ a ∈ l := by
  induction l with
  | nil => simp [sortByKeyDesc]
  | cons x xs ih => simp [sortByKeyDesc, mem_insertByKeyDesc, ih]

theorem pairwise_insertByKeyDesc {α : Type} (key : α → ℤ) (x : α) (l : List α)
    (h : l.Pairwise (fun a b => key b ≤ key a)) :
    (insertByKeyDesc key x l).Pairwise (fun a b => key b ≤ key a) := by
  induction l with
  | nil => simp [insertByKeyDesc]
  | cons y ys ih =>
    simp only [insertByKeyDesc]
    rcases List.pairwise_cons.mp h with ⟨hy, hys⟩
    split
    · rename_i hxy
      refine List.pairwise_cons.mpr ⟨?_, h⟩
      intro z hz
      rcases List.mem_cons.mp hz with rfl | hz
      · exact hxy
      · exact le_trans (hy z hz) hxy
    · rename_i hxy
      refine List.pairwise_cons.mpr ⟨?_, ih hys⟩
      intro z hz
      rcases (mem_insertByKeyDesc key x ys z).mp hz with rfl | hz
      · exact le_of_lt (lt_of_not_ge hxy)
      · exact hy z hz

theorem pairwise_sortByKeyDesc {α : Type} (key : α → ℤ) (l : List α) :
    (sortByKeyDesc key l).Pairwise (fun a b => key b ≤ key a) := by
  induction l with
  | nil => simp [sortByKeyDesc]
  | cons x xs ih => exact pairwise_insertByKeyDesc key x _ ih

theorem filter_insertByKeyDesc {α : Type} (key : α → ℤ) (x : α) (l : List α) (t : ℤ) :
    (insertByKeyDesc key x l).filter (fun a => key a == t)
      = (if key x == t then [x] else []) ++ l.filter (fun a => key a == t) := by
  induction l with
  | nil =>
    by_cases hxt : key x = t <;> simp [insertByKeyDesc, List.filter_cons, hxt]
  | cons y ys ih =>
    simp only [insertByKeyDesc]
    split
    · rename_i hyx
      by_cases hxt : key x = t <;> simp [List.filter_cons, hxt]
    · rename_i hyx
      have hky : ¬ key y ≤ key x := hyx
      by_cases hxt : key x = t
      · have hyt : ¬ (key y = t) := by
          intro hyt
          exact hky (by omega)
        simp [List.filter_cons, hxt, hyt, ih]
      · by_cases hyt : key y = t <;>
          simp [List.filter_cons, hxt, hyt, ih]

/-- Stability of the descending sort: elements sharing one key value keep
their relative (provider) order. -/
theorem filter_sortByKeyDesc {α : Type} (key : α → ℤ) (l : List α) (t : ℤ) :
    (sortByKeyDesc key l).filter (fun a => key a == t)
      = l.filter (fun a => key a == t) := by
  induction l with
  | nil => simp [sortByKeyDesc]
  | cons x xs ih =>
    simp only [sortByKeyDesc, filter_insertByKeyDesc, ih, List.filter]
    split
    · rename_i hxt
      simp [hxt]
    · rename_i hxt
      simp [hxt]

theorem headOpt_insertByKeyDesc {α : Type} (key : α → ℤ) (x : α) (l : List α) :
    (insertByKeyDesc key x l).head?
      = some (match l.head? with
              | none => x
              | some y => if key y ≤ key x then x else y) := by
  cases l with
  | nil => simp [insertByKeyDesc]
  | cons y ys =>
    simp only [insertByKeyDesc]
    split
    · rename_i h
      simp [h]
    · rename_i h
      simp [h]

/-- The head of the stable descending sort is the first-encountered element
with maximal key: the tie-breaking rule of `Object.entries(...).sort(...)[0]`. -/
theorem headOpt_sortByKeyDesc {α : Type} (key : α → ℤ) (l : List α) :
    (sortByKeyDesc key l).head? = firstMaxBy key l := by
  induction l with
  | nil => simp [sortByKeyDesc, firstMaxBy]
  | cons x xs ih =>
    cases h : firstMaxBy key xs with
    | none =>
      rw [sortByKeyDesc, headOpt_insertByKeyDesc, ih, h]
      simp [firstMaxBy, h]
    | some m =>
      rw [sortByKeyDesc, headOpt_insertByKeyDesc, ih, h]
      simp only [firstMaxBy, h]
      split <;> simp

/-! ## Data model (`src/types/index.ts`) -/

/-- One historical swap as mapped by the History Client (`SwapTransaction`). -/
structure SwapTransaction where
  hash : String
  timestamp : ℤ
  from_token : String
  to_token : String
  from_token_address : String
  to_token_address : String
  from_amount : ℚ
  to_amount : ℚ
  gas_used : ℤ
  gas_price : ℚ
  dex : String
  usd_value : Option ℚ
  slippage : Option ℚ
deriving DecidableEq, Repr

/-- One aggregator quote (`OneInchQuote`); `toAmount` and `estimatedGas` hold
the values of `parseFloat(quote.toAmount)` and `parseInt(quote.estimatedGas)`. -/
structure Quote where
  toAmount : ℚ
  estimatedGas : ℤ
  protocols : List (List String)
deriving DecidableEq, Repr

/-- One per-transaction delta line of `ComparisonResult.detailedComparisons`. -/
structure DetailedComparison where
  txHash : String
  actualRoute : String
  optimalRoute : String
  gasDifference : ℚ
  slippageDifference : ℚ
  actualAmountOut : ℚ
  optimalAmountOut : ℚ
deriving DecidableEq, Repr

/-- Recommendation strings pushed by `generateRecommendations` in
`comparison.ts`, one constructor per push site, carrying the interpolated
numeric values. -/
inductive Reco where
  | useAggregator
  | potentialSavings (gwei : ℚ) (pct : ℚ)
  | efficientAlready
  | upgradeUniswapV3
  | highSlippage (s : ℚ)
  | moderateSlippage
  | suboptimalRouting
  | professionalInterfaces
  | noTransactionsFound
deriving DecidableEq, Repr

/-- Aggregate result of `compareWithOneInch` (`ComparisonResult`). -/
structure ComparisonResult where
  success : Bool
  wallet : String
  totalTransactions : ℕ
  totalActualGas : ℚ
  totalOptimalGas : ℚ
  gasSavingsPotential : ℚ
  averageSlippageActual : ℚ
  recommendations : List Reco
  detailedComparisons : List DetailedComparison
deriving DecidableEq, Repr

/-- One row of a completed provider query, already parsed: `none` models a
missing/empty field that the mapping replaces by its default. -/
structure DuneRow where
  tx_hash : Option String
  block_time : Option ℤ
  token_sold_symbol : Option String
  token_bought_symbol : Option String
  token_sold_address : Option String
  token_bought_address : Option String
  token_sold_amount : Option ℚ
  token_bought_amount : Option ℚ
  amount_usd : Option ℚ
  gas_used : Option ℤ
  gas_price : Option ℚ
  project : Option String
deriving DecidableEq, Repr

/-! ## History Client (`src/utils/api.ts`) -/

/-- Slippage placeholder of `calculateSlippage`: zero on a zero amount,
otherwise a two-decimal rounding of `Math.random() * 2` — the random draw is
the explicit argument `rand`. -/
def calculateSlippage (rand amountIn amountOut : ℚ) : ℚ :=
  if amountIn = 0 ∨ amountOut = 0 then 0
  else round2 (rand * 2)

/-- Row-to-transaction mapping performed by `getDuneData` on a completed
query, substituting defaults for missing fields; `now` models the
`new Date()` fallback timestamp and `rand` the `Math.random()` draw consumed
by `calculateSlippage`. -/
def mapRow (now : ℤ) (rand : ℚ) (row : DuneRow) : SwapTransaction :=
  { hash := jsOrStr row.tx_hash "unknown"
    timestamp := row.block_time.getD now
    from_token := jsOrStr row.token_sold_symbol "UNKNOWN"
    to_token := jsOrStr row.token_bought_symbol "UNKNOWN"
    from_token_address := jsOrStr row.token_sold_address ""
    to_token_address := jsOrStr row.token_bought_address ""
    from_amount := row.token_sold_amount.getD 0
    to_amount := row.token_bought_amount.getD 0
    gas_used := row.gas_used.getD 0
    gas_price := row.gas_price.getD 0
    dex := jsOrStr row.project "unknown"
    usd_value := some (row.amount_usd.getD 0)
    slippage := some (calculateSlippage rand (row.token_sold_amount.getD 0)
                        (row.token_bought_amount.getD 0)) }

/-- Maps the rows of a completed query in order, consuming one random draw
per row. -/
def mapRowsFrom (now : ℤ) (rands : ℕ → ℚ) : List DuneRow → ℕ → List SwapTransaction
  | [], _ => []
  | row :: rest, i => mapRow now (rands i) row :: mapRowsFrom now rands rest (i + 1)

/-- The rows returned by a completed provider query, mapped to transactions. -/
def mapRows (now : ℤ) (rands : ℕ → ℚ) (rows : List DuneRow) : List SwapTransaction :=
  mapRowsFrom now rands rows 0

/-- Status of one response of the execution-results endpoint. -/
inductive PollState where
  | completed (rows : List DuneRow)
  | failed
  | pending
deriving DecidableEq, Repr

/-- Outcome of the polling loop of `getDuneData`. -/
inductive PollOutcome where
  | ok (txs : List SwapTransaction)
  | queryFailed
  | queryTimeout
deriving DecidableEq, Repr

/-- The `while (attempts < maxAttempts)` polling loop of `getDuneData`:
`f i` is the status returned by the i-th poll (each preceded by a 2-second
wait), `fuel` the remaining attempts. Returns the outcome together with the
number of status checks performed. -/
def pollAux (f : ℕ → PollState) (now : ℤ) (rands : ℕ → ℚ) :
    ℕ → ℕ → PollOutcome × ℕ
  | i, 0 => (.queryTimeout, i)
  | i, fuel + 1 =>
    match f i with
    | .completed rows => (.ok (mapRows now rands rows), i + 1)
    | .failed => (.queryFailed, i + 1)
    | .pending => pollAux f now rands (i + 1) fuel

/-- `getDuneData` after query submission: polls up to `maxAttempts = 30`
times. -/
def getDuneDataPoll (f : ℕ → PollState) (now : ℤ) (rands : ℕ → ℚ) :
    PollOutcome × ℕ :=
  pollAux f now rands 0 30

/-! ## Transaction Retrieval (`src/tools/transactions.ts`) -/

/-- The validation filter of `getUserTransactions`: JavaScript truthiness of
`tx.hash`, `tx.from_token`, `tx.to_token` plus positivity of both amounts and
of the gas used. -/
def validTx (tx : SwapTransaction) : Bool :=
  tx.hash ≠ "" && tx.from_token ≠ "" && tx.to_token ≠ ""
    && 0 < tx.from_amount && 0 < tx.to_amount && 0 < tx.gas_used

/-- Post-fetch processing of `getUserTransactions`: keep valid transactions,
then stable-sort by timestamp descending (`.sort((a, b) => b - a)` on
`getTime()` values). -/
def getUserTransactions (txs : List SwapTransaction) : List SwapTransaction :=
  sortByKeyDesc (fun tx => tx.timestamp) (txs.filter validTx)

/-- Outcome of the input validation performed before any outbound request. -/
inductive ValidationOutcome where
  | invalidInput
  | proceed
deriving DecidableEq, Repr

/-- Wallet validation of `getUserTransactions`: rejects a falsy or
non-`0x`-prefixed wallet, then rejects any wallet whose length is not 42;
only then is the History Client invoked. -/
def getUserTransactionsValidate (w : String) : ValidationOutcome :=
  if w = "" ∨ startsWith0x w = false then .invalidInput
  else if w.length ≠ 42 then .invalidInput
  else .proceed

/-- Wallet validation of `compareWithOneInch`: only falsy and
non-`0x`-prefixed wallets are rejected before `getDuneData` is called. -/
def compareWithOneInchValidate (w : String) : ValidationOutcome :=
  if w = "" ∨ startsWith0x w = false then .invalidInput
  else .proceed

/-- Wallet validation of `generateSwapReport`: identical to the comparison
guard — only falsiness and the `0x` prefix are checked. -/
def generateSwapReportValidate (w : String) : ValidationOutcome :=
  if w = "" ∨ startsWith0x w = false then .invalidInput
  else .proceed

/-! ## Comparison Engine (`src/tools/comparison.ts`) -/

/-- Mutable state of the comparison loop in `compareWithOneInch`. -/
structure CompareState where
  comparisons : List DetailedComparison
  totalActualGas : ℚ
  totalOptimalGas : ℚ
  totalSlippage : ℚ
  validComparisons : ℕ
deriving DecidableEq, Repr

/-- Initial loop state. -/
def initCompareState : CompareState :=
  { comparisons := [], totalActualGas := 0, totalOptimalGas := 0
    totalSlippage := 0, validComparisons := 0 }

/-- The `protocols[0]?.[0] || '1inch Aggregated'` fallback. -/
def optimalRouteOf (q : Quote) : String :=
  match q.protocols.head? with
  | some (s :: _) => if s = "" then "1inch Aggregated" else s
  | _ => "1inch Aggregated"

/-- The delta line pushed onto `detailedComparisons` for one successfully
compared (transaction, quote) pair: `actualGas = gas_used × gas_price`,
`optimalGas = estimatedGas × gas_price`, output amount delta from
`parseFloat(quote.toAmount) / 1e18`. -/
def mkComparisonRecord (tx : SwapTransaction) (q : Quote) : DetailedComparison :=
  { txHash := tx.hash
    actualRoute := tx.dex
    optimalRoute := optimalRouteOf q
    gasDifference := (tx.gas_used : ℚ) * tx.gas_price - (q.estimatedGas : ℚ) * tx.gas_price
    slippageDifference := tx.slippage.getD 0
    actualAmountOut := tx.to_amount
    optimalAmountOut := q.toAmount / 10 ^ 18 }

/-- One iteration of the comparison loop: a transaction lacking either token
address is skipped; a quote call that throws (`none`) is caught and the loop
continues; otherwise gas and slippage are accumulated and a delta line is
pushed. -/
def compareStep (tx : SwapTransaction) (q? : Option Quote) (st : CompareState) :
    CompareState :=
  if tx.from_token_address = "" || tx.to_token_address = "" then st
  else
    match q? with
    | none => st
    | some q =>
      { comparisons := st.comparisons ++ [mkComparisonRecord tx q]
        totalActualGas := st.totalActualGas + (tx.gas_used : ℚ) * tx.gas_price
        totalOptimalGas := st.totalOptimalGas + (q.estimatedGas : ℚ) * tx.gas_price
        totalSlippage := st.totalSlippage + tx.slippage.getD 0
        validComparisons := st.validComparisons + 1 }

/-- The `for (const tx of transactions)` loop, threading the loop state;
`quotes i` is the outcome of the quote call for the transaction at
position `i`. -/
def compareLoop (quotes : ℕ → Option Quote) :
    List SwapTransaction → ℕ → CompareState → CompareState
  | [], _, st => st
  | tx :: rest, i, st => compareLoop quotes rest (i + 1) (compareStep tx (quotes i) st)

/-- First-encounter-ordered venue tally: the `transactions.reduce` building
`dexUsage` (JavaScript object keys keep insertion order). -/
def bumpTally (d : String) : List (String × ℕ) → List (String × ℕ)
  | [] => [(d, 1)]
  | (k, n) :: rest => if k = d then (k, n + 1) :: rest else (k, n) :: bumpTally d rest

/-- Venue-usage tally of a transaction list, in first-encounter order. -/
def dexTally (txs : List SwapTransaction) : List (String × ℕ) :=
  txs.foldl (fun acc tx => bumpTally tx.dex acc) []

/-- `Object.entries(dexUsage).sort(([,a],[,b]) => b - a)[0]`: the stable sort
keeps first-encountered venues ahead on tied counts. -/
def mostUsedDexEntry (txs : List SwapTransaction) : Option (String × ℕ) :=
  (sortByKeyDesc (fun p => (p.2 : ℤ)) (dexTally txs)).head?

/-- The recommendation generator of `comparison.ts` (pure function of its
arguments). -/
def generateRecommendations (txs : List SwapTransaction)
    (gasSavingsPotential totalActualGas averageSlippage : ℚ)
    (comparisons : List DetailedComparison) : List Reco :=
  let gasRecs : List Reco :=
    if 0 < gasSavingsPotential then
      [.useAggregator,
       .potentialSavings (gasSavingsPotential / 10 ^ 9)
         (gasSavingsPotential / totalActualGas * 100)]
    else [.efficientAlready]
  let dexRecs : List Reco :=
    match mostUsedDexEntry txs with
    | some (d, _) => if d = "Uniswap V2" then [.upgradeUniswapV3] else []
    | none => []
  let slippageRecs : List Reco :=
    if 1 < averageSlippage then [.highSlippage averageSlippage]
    else if 1 / 2 < averageSlippage then [.moderateSlippage]
    else []
  let suboptimalCount := (comparisons.filter (fun c => 0 < c.gasDifference)).length
  let routeRecs : List Reco :=
    if (comparisons.length : ℚ) * (3 / 10) < (suboptimalCount : ℚ) then
      [.suboptimalRouting]
    else []
  let highValueCount := (txs.filter (fun tx => 1000 < tx.usd_value.getD 0)).length
  let volumeRecs : List Reco :=
    if 0 < highValueCount then [.professionalInterfaces] else []
  gasRecs ++ dexRecs ++ slippageRecs ++ routeRecs ++ volumeRecs

/-- The all-zero result returned when the history is empty, carrying the
single advisory line `'No transactions found for analysis'`. -/
def emptyComparisonResult (wallet : String) : ComparisonResult :=
  { success := true, wallet := wallet, totalTransactions := 0
    totalActualGas := 0, totalOptimalGas := 0, gasSavingsPotential := 0
    averageSlippageActual := 0, recommendations := [.noTransactionsFound]
    detailedComparisons := [] }

/-- `compareWithOneInch` after wallet validation and history fetch: the body
operating on the transactions returned by `getDuneData(walletAddress, 10)`
(note: NOT on the filtered, sorted output of `getUserTransactions`). -/
def compareWithOneInch (wallet : String) (txs : List SwapTransaction)
    (quotes : ℕ → Option Quote) : ComparisonResult :=
  if txs.length = 0 then emptyComparisonResult wallet
  else
    let st := compareLoop quotes txs 0 initCompareState
    let gasSavingsPotential := max 0 (st.totalActualGas - st.totalOptimalGas)
    let averageSlippageActual :=
      if 0 < st.validComparisons then st.totalSlippage / st.validComparisons else 0
    { success := true
      wallet := wallet
      totalTransactions := txs.length
      totalActualGas := st.totalActualGas
      totalOptimalGas := st.totalOptimalGas
      gasSavingsPotential := gasSavingsPotential
      averageSlippageActual := round2 averageSlippageActual
      recommendations := generateRecommendations txs gasSavingsPotential
        st.totalActualGas averageSlippageActual st.comparisons
      detailedComparisons := st.comparisons }

/-- The (transaction, quote) pairs actually compared by the loop: all list
elements in order, minus those lacking a token address, minus those whose
quote call failed. -/
def eligiblePairs (quotes : ℕ → Option Quote) :
    List SwapTransaction → ℕ → List (SwapTransaction × Quote)
  | [], _ => []
  | tx :: rest, i =>
    if tx.from_token_address = "" || tx.to_token_address = "" then
      eligiblePairs quotes rest (i + 1)
    else
      match quotes i with
      | none => eligiblePairs quotes rest (i + 1)
      | some q => (tx, q) :: eligiblePairs quotes rest (i + 1)

/-! ## Report Generator (`src/tools/report.ts`) -/

/-- Report summary block. -/
structure ReportSummary where
  totalSwaps : ℕ
  totalVolumeUSD : ℚ
  averageGasUsed : ℤ
  mostUsedDEX : String
  efficiencyScore : ℤ
deriving DecidableEq, Repr

/-- Report gas-analysis block. -/
structure GasAnalysis where
  totalGasSpent : ℤ
  averageGasPrice : ℤ
  potentialSavings : ℤ
  savingsPercentage : ℚ
deriving DecidableEq, Repr

/-- Missed-opportunity notes of the routing analysis, one constructor per
push site with the interpolated count. -/
inductive Opportunity where
  | noComparisonData
  | significantGas (n : ℕ)
  | betterRates (n : ℕ)
  | generallyOptimal
  | noTransactionsFound
deriving DecidableEq, Repr

/-- Report routing-analysis block. -/
structure RoutingAnalysis where
  optimalRoutes : ℕ
  suboptimalRoutes : ℕ
  missedOpportunities : List Opportunity
deriving DecidableEq, Repr

/-- Recommendation strings pushed by `generateComprehensiveRecommendations`,
plus those spread from the comparison result. -/
inductive ReportReco where
  | fromComparison (r : Reco)
  | lowEfficiency
  | roomForImprovement
  | excellentEfficiency
  | timeTradesLowGas
  | goodGasTiming
  | professionalTools
  | batchSmallTrades
  | diversifyDexes
  | dcaStrategy
  | startSwapping
deriving DecidableEq, Repr

/-- Top-level report (`SwapReportData`); timestamps are time values. -/
structure SwapReportData where
  success : Bool
  wallet : String
  reportGeneratedAt : ℤ
  summary : ReportSummary
  gasAnalysis : GasAnalysis
  routingAnalysis : RoutingAnalysis
  recommendations : List ReportReco
  timeRange : ℤ × ℤ
deriving DecidableEq, Repr

/-- `Math.min(...)` over a list of time values (callers guarantee
non-emptiness). -/
def listMinInt : List ℤ → ℤ
  | [] => 0
  | x :: xs => xs.foldl min x

/-- `Math.max(...)` over a list of time values. -/
def listMaxInt : List ℤ → ℤ
  | [] => 0
  | x :: xs => xs.foldl max x

/-- Membership test on a list of strings. -/
def memStr (s : String) : List String → Bool
  | [] => false
  | t :: rest => s = t || memStr s rest

/-- The number of distinct values in a list: `new Set(l).size`. -/
def distinctCount : List String → ℕ
  | [] => 0
  | s :: rest => (if memStr s rest then 0 else 1) + distinctCount rest

/-- `calculateRealVolumeUSD`: provider-supplied positive USD value when
present, else spot price times source amount when the price is positive,
else zero contribution; `price` models `getTokenPrice` (which returns 0 on
any failure and never throws). -/
def calculateRealVolumeUSD (price : String → ℚ) (txs : List SwapTransaction) : ℚ :=
  txs.foldl (fun total tx =>
    if 0 < tx.usd_value.getD 0 then total + tx.usd_value.getD 0
    else if 0 < price tx.from_token then total + tx.from_amount * price tx.from_token
    else total) 0

/-- `calculateEfficiencyScore`: starts at 100, applies the gas, slippage and
outdated-venue penalties and the focused-trading bonus, then clamps to
[0, 100]. -/
def calculateEfficiencyScore (gasSavingsPotential totalGasSpent averageSlippage : ℚ)
    (txs : List SwapTransaction) : ℚ :=
  let score : ℚ := 100
  let score := if 0 < totalGasSpent then
      score - gasSavingsPotential / totalGasSpent * 50
    else score
  let score := score - min (averageSlippage * 10) 30
  let outdatedDexCount :=
    (txs.filter (fun tx => strIncludes tx.dex "V1" || strIncludes tx.dex "SushiSwap")).length
  let score := score - (outdatedDexCount : ℚ) / (txs.length : ℚ) * 20
  let uniqueDexes := distinctCount (txs.map (fun tx => tx.dex))
  let score := if uniqueDexes ≤ 3 ∧ 5 < txs.length then score + 5 else score
  max 0 (min 100 score)

/-- `calculateRoutingAnalysis`: non-positive gas difference counts as
optimal; missed-opportunity notes per the two thresholds, with an affirmative
note when neither fires. -/
def calculateRoutingAnalysis (cs : List DetailedComparison) : RoutingAnalysis :=
  if cs.length = 0 then
    { optimalRoutes := 0, suboptimalRoutes := 0
      missedOpportunities := [.noComparisonData] }
  else
    let optimalRoutes := (cs.filter (fun c => c.gasDifference ≤ 0)).length
    let suboptimalRoutes := cs.length - optimalRoutes
    let significant := (cs.filter (fun c => 50000 < c.gasDifference)).length
    let better := (cs.filter (fun c =>
      c.actualAmountOut * (101 / 100) < c.optimalAmountOut)).length
    let opps := (if 0 < significant then [Opportunity.significantGas significant] else [])
      ++ (if 0 < better then [Opportunity.betterRates better] else [])
    let opps := if opps.length = 0 then [Opportunity.generallyOptimal] else opps
    { optimalRoutes := optimalRoutes, suboptimalRoutes := suboptimalRoutes
      missedOpportunities := opps }

/-- `generateComprehensiveRecommendations`: the comparison list is spread
first, then each independent threshold-driven line. -/
def generateComprehensiveRecommendations (txs : List SwapTransaction)
    (comparison : ComparisonResult)
    (efficiencyScore averageGasPrice totalVolumeUSD : ℚ) : List ReportReco :=
  let base := comparison.recommendations.map ReportReco.fromComparison
  let effRecs : List ReportReco :=
    if efficiencyScore < 50 then [.lowEfficiency]
    else if efficiencyScore < 70 then [.roomForImprovement]
    else if 90 ≤ efficiencyScore then [.excellentEfficiency]
    else []
  let gasRecs : List ReportReco :=
    if 100 * 10 ^ 9 < averageGasPrice then [.timeTradesLowGas]
    else if averageGasPrice < 20 * 10 ^ 9 then [.goodGasTiming]
    else []
  let volRecs : List ReportReco :=
    if 100000 < totalVolumeUSD then [.professionalTools]
    else if totalVolumeUSD < 1000 then [.batchSmallTrades]
    else []
  let divRecs : List ReportReco :=
    if distinctCount (txs.map (fun tx => tx.dex)) = 1 then [.diversifyDexes] else []
  let freqRecs : List ReportReco :=
    if 20 < txs.length then [.dcaStrategy] else []
  base ++ effRecs ++ gasRecs ++ volRecs ++ divRecs ++ freqRecs

/-- The all-zero report returned for an empty history. -/
def emptySwapReport (wallet : String) (now genTime : ℤ) : SwapReportData :=
  { success := true, wallet := wallet, reportGeneratedAt := genTime
    summary := { totalSwaps := 0, totalVolumeUSD := 0, averageGasUsed := 0
                 mostUsedDEX := "N/A", efficiencyScore := 0 }
    gasAnalysis := { totalGasSpent := 0, averageGasPrice := 0
                     potentialSavings := 0, savingsPercentage := 0 }
    routingAnalysis := { optimalRoutes := 0, suboptimalRoutes := 0
                         missedOpportunities := [.noTransactionsFound] }
    recommendations := [.startSwapping]
    timeRange := (now, now) }

/-- `generateSwapReport` after wallet validation, on a stable upstream
snapshot: `rows50`/`rows10` are the provider rows for the two concurrent
fetches (limits 50 and 10), `rands50`/`rands10` the `Math.random()` draws
consumed when each fetch maps its rows, `quotes` the per-position quote
outcomes of the comparison run, `price` the spot-price lookups, `now` the
clock used for row defaults and the empty-case time range, and `genTime` the
`reportGeneratedAt` stamp. -/
def generateSwapReport (wallet : String) (rows50 rows10 : List DuneRow)
    (rands50 rands10 : ℕ → ℚ) (quotes : ℕ → Option Quote)
    (price : String → ℚ) (now genTime : ℤ) : SwapReportData :=
  let transactions := getUserTransactions (mapRows now rands50 rows50)
  let comparison := compareWithOneInch wallet (mapRows now rands10 rows10) quotes
  if transactions.length = 0 then emptySwapReport wallet now genTime
  else
    let totalVolumeUSD := calculateRealVolumeUSD price transactions
    let totalGasSpent := (transactions.map (fun tx => (tx.gas_used : ℚ) * tx.gas_price)).sum
    let totalGasUnits := (transactions.map (fun tx => tx.gas_used)).sum
    let averageGasUsed := roundJS ((totalGasUnits : ℚ) / (transactions.length : ℚ))
    let averageGasPrice := totalGasSpent / (totalGasUnits : ℚ)
    let mostUsedDEX :=
      match mostUsedDexEntry transactions with
      | some (d, _) => if d = "" then "Unknown" else d
      | none => "Unknown"
    let efficiencyScore := calculateEfficiencyScore comparison.gasSavingsPotential
      totalGasSpent comparison.averageSlippageActual transactions
    let routing := calculateRoutingAnalysis comparison.detailedComparisons
    let recommendations := generateComprehensiveRecommendations transactions
      comparison efficiencyScore averageGasPrice totalVolumeUSD
    let potentialSavings := max 0 comparison.gasSavingsPotential
    let savingsPercentage :=
      if 0 < totalGasSpent then potentialSavings / totalGasSpent * 100 else 0
    { success := true
      wallet := wallet
      reportGeneratedAt := genTime
      summary := { totalSwaps := transactions.length
                   totalVolumeUSD := round2 totalVolumeUSD
                   averageGasUsed := averageGasUsed
                   mostUsedDEX := mostUsedDEX
                   efficiencyScore := roundJS efficiencyScore }
      gasAnalysis := { totalGasSpent := roundJS totalGasSpent
                       averageGasPrice := roundJS averageGasPrice
                       potentialSavings := roundJS potentialSavings
                       savingsPercentage := round2 savingsPercentage }
      routingAnalysis := routing
      recommendations := recommendations
      timeRange := (listMinInt (transactions.map (fun tx => tx.timestamp)),
                    listMaxInt (transactions.map (fun tx => tx.timestamp))) }

/-! ## Helper lemmas -/

/-- The comparison loop is a fold over the eligible (transaction, quote)
pairs: its delta-line list and running totals are fully characterised by
`eligiblePairs`. -/
theorem compareLoop_spec (quotes : ℕ → Option Quote) :
    ∀ (txs : List SwapTransaction) (i : ℕ) (st : CompareState),
      (compareLoop quotes txs i st).comparisons
        = st.comparisons
            ++ (eligiblePairs quotes txs i).map (fun p => mkComparisonRecord p.1 p.2)
      ∧ (compareLoop quotes txs i st).totalActualGas
        = st.totalActualGas
            + ((eligiblePairs quotes txs i).map
                (fun p => (p.1.gas_used : ℚ) * p.1.gas_price)).sum
      ∧ (compareLoop quotes txs i st).totalOptimalGas
        = st.totalOptimalGas
            + ((eligiblePairs quotes txs i).map
                (fun p => (p.2.estimatedGas : ℚ) * p.1.gas_price)).sum := by
  intro txs
  induction txs with
  | nil =>
    intro i st
    simp [compareLoop, eligiblePairs]
  | cons tx rest ih =>
    intro i st
    by_cases haddr : tx.from_token_address = "" ∨ tx.to_token_address = ""
    · have hb : (decide (tx.from_token_address = "")
          || decide (tx.to_token_address = "")) = true := by
        simp [haddr]
      simp only [compareLoop, compareStep, eligiblePairs, hb, if_true]
      exact ih (i + 1) st
    · have hb : (decide (tx.from_token_address = "")
          || decide (tx.to_token_address = "")) = false := by
        push_neg at haddr
        simp [haddr.1, haddr.2]
      cases hq : quotes i with
      | none =>
        simp only [compareLoop, compareStep, eligiblePairs, hb, Bool.false_eq_true,
          if_false, hq]
        exact ih (i + 1) st
      | some q =>
        simp only [compareLoop, compareStep, eligiblePairs, hb, Bool.false_eq_true,
          if_false, hq]
        rcases ih (i + 1)
          { comparisons := st.comparisons ++ [mkComparisonRecord tx q]
            totalActualGas := st.totalActualGas + (tx.gas_used : ℚ) * tx.gas_price
            totalOptimalGas := st.totalOptimalGas + (q.estimatedGas : ℚ) * tx.gas_price
            totalSlippage := st.totalSlippage + tx.slippage.getD 0
            validComparisons := st.validComparisons + 1 } with ⟨h1, h2, h3⟩
        refine ⟨?_, ?_, ?_⟩
        · rw [h1]
          simp
        · rw [h2]
          simp only [List.map_cons, List.sum_cons]
          ring
        · rw [h3]
          simp only [List.map_cons, List.sum_cons]
          ring

/-- `compareWithOneInch` exposes the loop's characterisation on its result
fields. -/
theorem compareWithOneInch_spec (w : String) (txs : List SwapTransaction)
    (quotes : ℕ → Option Quote) :
    (compareWithOneInch w txs quotes).detailedComparisons
      = (eligiblePairs quotes txs 0).map (fun p => mkComparisonRecord p.1 p.2)
    ∧ (compareWithOneInch w txs quotes).totalActualGas
      = ((eligiblePairs quotes txs 0).map
          (fun p => (p.1.gas_used : ℚ) * p.1.gas_price)).sum
    ∧ (compareWithOneInch w txs quotes).totalOptimalGas
      = ((eligiblePairs quotes txs 0).map
          (fun p => (p.2.estimatedGas : ℚ) * p.1.gas_price)).sum := by
  unfold compareWithOneInch
  split
  · rename_i h
    have hnil : txs = [] := List.length_eq_zero.mp h
    subst hnil
    simp [emptyComparisonResult, eligiblePairs]
  · rcases compareLoop_spec quotes txs 0 initCompareState with ⟨h1, h2, h3⟩
    refine ⟨?_, ?_, ?_⟩
    · simpa [initCompareState] using h1
    · simpa [initCompareState] using h2
    · simpa [initCompareState] using h3

/-- Splitting a filtered length over a boolean predicate and its negation. -/
theorem length_filter_add_length_filter_neg {α : Type} (p : α → Bool) (l : List α) :
    (l.filter p).length + (l.filter (fun a => ! p a)).length = l.length := by
  induction l with
  | nil => simp
  | cons x xs ih =>
    cases hx : p x <;> simp [List.filter_cons, hx] <;> omega

/-- With every token address present, the number of eligible pairs is the
number of positions whose quote call succeeded. -/
theorem eligiblePairs_length (quotes : ℕ → Option Quote) :
    ∀ (txs : List SwapTransaction),
      (∀ tx ∈ txs, tx.from_token_address ≠ "" ∧ tx.to_token_address ≠ "") →
      ∀ i, (eligiblePairs quotes txs i).length
        = ((List.range' i txs.length).filter (fun j => (quotes j).isSome)).length := by
  intro txs
  induction txs with
  | nil =>
    intro _ i
    simp [eligiblePairs]
  | cons tx rest ih =>
    intro h i
    have htx := h tx (List.mem_cons_self _ _)
    have hrest := fun tx hm => h tx (List.mem_cons_of_mem _ hm)
    have hb : (decide (tx.from_token_address = "")
        || decide (tx.to_token_address = "")) = false := by
      simp [htx.1, htx.2]
    simp only [eligiblePairs, hb, Bool.false_eq_true, if_false, List.length_cons,
      List.range'_succ]
    cases hq : quotes i with
    | none =>
      simp [List.filter_cons, hq, ih hrest (i + 1)]
    | some q =>
      simp [List.filter_cons, hq, ih hrest (i + 1)]

/-- `Math.round` keeps a value of [0, 100] inside [0, 100]. -/
theorem roundJS_bounds (x : ℚ) (h0 : 0 ≤ x) (h100 : x ≤ 100) :
    0 ≤ roundJS x ∧ roundJS x ≤ 100 := by
  unfold roundJS
  constructor
  · exact Int.floor_nonneg.mpr (by linarith)
  · have h : ⌊x + 1/2⌋ < 101 := by
      rw [Int.floor_lt]
      push_cast
      linarith
    omega

/-- The clamp of the efficiency score lands in [0, 100] whatever the inputs. -/
theorem calculateEfficiencyScore_bounds (gs tgs as : ℚ) (txs : List SwapTransaction) :
    0 ≤ calculateEfficiencyScore gs tgs as txs
    ∧ calculateEfficiencyScore gs tgs as txs ≤ 100 := by
  unfold calculateEfficiencyScore
  constructor
  · exact le_max_left 0 _
  · exact max_le (by norm_num) (min_le_left _ _)

/-- Exhausting the fuel with pending statuses yields the timeout error after
exactly `fuel` further checks. -/
theorem pollAux_timeout (f : ℕ → PollState) (now : ℤ) (rands : ℕ → ℚ) :
    ∀ (fuel i : ℕ), (∀ j, i ≤ j → j < i + fuel → f j = .pending) →
      pollAux f now rands i fuel = (.queryTimeout, i + fuel) := by
  intro fuel
  induction fuel with
  | zero =>
    intro i _
    simp [pollAux]
  | succ n ih =>
    intro i h
    have hi : f i = .pending := h i le_rfl (by omega)
    simp only [pollAux, hi]
    rw [ih (i + 1) (fun j hj1 hj2 => h j (by omega) (by omega))]
    simp [Prod.ext_iff]
    omega

/-- A completed status at the first non-pending position returns the mapped
rows, after `k + 1` checks. -/
theorem pollAux_completed (f : ℕ → PollState) (now : ℤ) (rands : ℕ → ℚ) :
    ∀ (fuel i k : ℕ) (rows : List DuneRow),
      i ≤ k → k < i + fuel → (∀ j, i ≤ j → j < k → f j = .pending) →
      f k = .completed rows →
      pollAux f now rands i fuel = (.ok (mapRows now rands rows), k + 1) := by
  intro fuel
  induction fuel with
  | zero =>
    intro i k rows h1 h2 _ _
    omega
  | succ n ih =>
    intro i k rows hik hk hpend hc
    by_cases hik' : i = k
    · subst hik'
      simp [pollAux, hc]
    · have hi : f i = .pending := hpend i le_rfl (by omega)
      simp only [pollAux, hi]
      exact ih (i + 1) k rows (by omega) (by omega)
        (fun j hj1 hj2 => hpend j (by omega) hj2) hc

/-- A failed status at the first non-pending position fails immediately,
after `k + 1` checks. -/
theorem pollAux_failed (f : ℕ → PollState) (now : ℤ) (rands : ℕ → ℚ) :
    ∀ (fuel i k : ℕ),
      i ≤ k → k < i + fuel → (∀ j, i ≤ j → j < k → f j = .pending) →
      f k = .failed →
      pollAux f now rands i fuel = (.queryFailed, k + 1) := by
  intro fuel
  induction fuel with
  | zero =>
    intro i k h1 h2 _ _
    omega
  | succ n ih =>
    intro i k hik hk hpend hc
    by_cases hik' : i = k
    · subst hik'
      simp [pollAux, hc]
    · have hi : f i = .pending := hpend i le_rfl (by omega)
      simp only [pollAux, hi]
      exact ih (i + 1) k (by omega) (by omega)
        (fun j hj1 hj2 => hpend j (by omega) hj2) hc

/-- The number of status checks never exceeds the available fuel. -/
theorem pollAux_checks_le (f : ℕ → PollState) (now : ℤ) (rands : ℕ → ℚ) :
    ∀ (fuel i : ℕ), (pollAux f now rands i fuel).2 ≤ i + fuel := by
  intro fuel
  induction fuel with
  | zero =>
    intro i
    simp [pollAux]
  | succ n ih =>
    intro i
    cases hfi : f i with
    | completed rows => simp [pollAux, hfi]
    | failed => simp [pollAux, hfi]
    | pending =>
      simp only [pollAux, hfi]
      have := ih (i + 1)
      omega

/-! ## Concrete inputs used for examples, witnesses and counterexamples -/

/-- The wallet of the spec's worked example. -/
def exampleWallet : String := "0x1111111111111111111111111111111111111111"

/-- The spec's worked-example transaction: gas_used 100000, gas_price 50. -/
def exampleTx : SwapTransaction :=
  { hash := "0xhash1", timestamp := 0, from_token := "WETH", to_token := "USDC"
    from_token_address := "0xC02a", to_token_address := "0xA0b8"
    from_amount := 1, to_amount := 1, gas_used := 100000, gas_price := 50
    dex := "Uniswap V2", usd_value := some 0, slippage := some 0 }

/-- The spec's worked-example quote: estimatedGas 80000. -/
def exampleQuote : Quote :=
  { toAmount := 0, estimatedGas := 80000, protocols := [["Uniswap V3"]] }

/-- A quote stream always answering with the example quote. -/
def exampleQuotes : ℕ → Option Quote := fun _ => some exampleQuote

/-! ## Claims -/

/-- C1 counterexample: the wallet `"0xabc"` is `0x`-prefixed but has length
5 ≠ 42, yet `compare_with_1inch` and `generate_swap_report` pass their guard
and proceed to the history fetch — they do not fail with an invalid-input
error before a network call is attempted. Only `get_user_transactions`
checks the length. -/
theorem c1_missing_length_check :
    ("0xabc".length ≠ 42)
    ∧ startsWith0x "0xabc" = true
    ∧ compareWithOneInchValidate "0xabc" = .proceed
    ∧ generateSwapReportValidate "0xabc" = .proceed
    ∧ getUserTransactionsValidate "0xabc" = .invalidInput := by
  refine ⟨by decide, by decide, ?_, ?_, ?_⟩ <;> decide

/-- C1 (amended): a falsy or non-`0x`-prefixed wallet is rejected by all
three operations before any network call; the exact-length-42 requirement is
enforced only by `get_user_transactions`, while `compare_with_1inch` and
`generate_swap_report` proceed for every nonempty `0x`-prefixed wallet. -/
theorem c1_wallet_validation (w : String) :
    (w = "" ∨ startsWith0x w = false →
      getUserTransactionsValidate w = .invalidInput
      ∧ compareWithOneInchValidate w = .invalidInput
      ∧ generateSwapReportValidate w = .invalidInput)
    ∧ (startsWith0x w = false ∨ w.length ≠ 42 →
      getUserTransactionsValidate w = .invalidInput)
    ∧ (compareWithOneInchValidate w = .proceed ↔ ¬ (w = "" ∨ startsWith0x w = false))
    ∧ (generateSwapReportValidate w = .proceed ↔ ¬ (w = "" ∨ startsWith0x w = false)) := by
  by_cases h : w = "" ∨ startsWith0x w = false
  · refine ⟨fun _ => ?_, fun _ => ?_, ?_, ?_⟩
    · simp [getUserTransactionsValidate, compareWithOneInchValidate,
        generateSwapReportValidate, h]
    · simp [getUserTransactionsValidate, h]
    · simp [compareWithOneInchValidate, h]
    · simp [generateSwapReportValidate, h]
  · refine ⟨fun hc => absurd hc h, ?_, ?_, ?_⟩
    · intro hlen
      rcases hlen with hs | hl
      · exact absurd (Or.inr hs) h
      · simp [getUserTransactionsValidate, h, hl]
    · simp [compareWithOneInchValidate, h]
    · simp [generateSwapReportValidate, h]

/-- Witness for C1 (amended) at the concrete wallets `"0x12"` (rejected by
the retrieval length check, accepted by the comparison guard) and `"zz"`
(rejected everywhere). -/
theorem c1_wallet_validation_witness :
    getUserTransactionsValidate "0x12" = .invalidInput
    ∧ compareWithOneInchValidate "0x12" = .proceed
    ∧ compareWithOneInchValidate "zz" = .invalidInput := by
  refine ⟨(c1_wallet_validation "0x12").2.1 (Or.inr (by decide)),
    ((c1_wallet_validation "0x12").2.2.1).mpr (by decide),
    ((c1_wallet_validation "zz").1 (Or.inr (by decide))).2.1⟩

/-- C3: the aggregate gas-savings potential equals
`max 0 (Σ actualGas − Σ optimalGas)`, hence is never negative, and the
spec's worked example (one transaction, gas_used 100000, gas_price 50,
quoted estimatedGas 80000) yields totals 5000000 / 4000000 and savings
1000000. -/
theorem c3_gas_savings_clamped :
    (∀ (w : String) (txs : List SwapTransaction) (quotes : ℕ → Option Quote),
      (compareWithOneInch w txs quotes).gasSavingsPotential
        = max 0 ((compareWithOneInch w txs quotes).totalActualGas
            - (compareWithOneInch w txs quotes).totalOptimalGas)
      ∧ 0 ≤ (compareWithOneInch w txs quotes).gasSavingsPotential)
    ∧ (compareWithOneInch exampleWallet [exampleTx] exampleQuotes).totalActualGas
        = 5000000
    ∧ (compareWithOneInch exampleWallet [exampleTx] exampleQuotes).totalOptimalGas
        = 4000000
    ∧ (compareWithOneInch exampleWallet [exampleTx] exampleQuotes).gasSavingsPotential
        = 1000000 := by
  refine ⟨?_, ?_, ?_, ?_⟩
  · intro w txs quotes
    unfold compareWithOneInch
    split
    · simp [emptyComparisonResult]
    · exact ⟨rfl, le_max_left 0 _⟩
  · simp [compareWithOneInch, compareLoop, compareStep, initCompareState,
      exampleWallet, exampleTx, exampleQuote, exampleQuotes]
    norm_num
  · simp [compareWithOneInch, compareLoop, compareStep, initCompareState,
      exampleWallet, exampleTx, exampleQuote, exampleQuotes]
    norm_num
  · simp [compareWithOneInch, compareLoop, compareStep, initCompareState,
      exampleWallet, exampleTx, exampleQuote, exampleQuotes]
    norm_num [max_def]

/-- C4: the efficiency score reported by `generate_swap_report` lies in
[0, 100] for every input (the empty-history report pins it to 0, the main
path clamps before rounding), and the clamp holds for the raw
`calculateEfficiencyScore` at arbitrary magnitudes. -/
theorem c4_efficiency_score_in_range :
    (∀ (wallet : String) (rows50 rows10 : List DuneRow) (rands50 rands10 : ℕ → ℚ)
        (quotes : ℕ → Option Quote) (price : String → ℚ) (now genTime : ℤ),
      0 ≤ (generateSwapReport wallet rows50 rows10 rands50 rands10 quotes price
            now genTime).summary.efficiencyScore
      ∧ (generateSwapReport wallet rows50 rows10 rands50 rands10 quotes price
            now genTime).summary.efficiencyScore ≤ 100)
    ∧ (∀ (gs tgs as : ℚ) (txs : List SwapTransaction), txs ≠ [] →
      0 ≤ calculateEfficiencyScore gs tgs as txs
      ∧ calculateEfficiencyScore gs tgs as txs ≤ 100) := by
  constructor
  · intro wallet rows50 rows10 rands50 rands10 quotes price now genTime
    by_cases h : (getUserTransactions (mapRows now rands50 rows50)).length = 0
    · simp [generateSwapReport, h, emptySwapReport]
    · have hb := calculateEfficiencyScore_bounds
        ((compareWithOneInch wallet (mapRows now rands10 rows10) quotes).gasSavingsPotential)
        (((getUserTransactions (mapRows now rands50 rows50)).map
          (fun tx => (tx.gas_used : ℚ) * tx.gas_price)).sum)
        ((compareWithOneInch wallet (mapRows now rands10 rows10) quotes).averageSlippageActual)
        (getUserTransactions (mapRows now rands50 rows50))
      have hr := roundJS_bounds _ hb.1 hb.2
      simpa [generateSwapReport, h] using hr
  · intro gs tgs as txs _
    exact calculateEfficiencyScore_bounds gs tgs as txs

/-- Witness for C4 at concrete extreme inputs: savings one billion on a
one-unit gas spend and a negative mean slippage still land in [0, 100]. -/
theorem c4_efficiency_score_witness :
    0 ≤ calculateEfficiencyScore 1000000000 1 (-5) [exampleTx]
    ∧ calculateEfficiencyScore 1000000000 1 (-5) [exampleTx] ≤ 100 :=
  c4_efficiency_score_in_range.2 1000000000 1 (-5) [exampleTx]
    (List.cons_ne_nil _ _)

/-- A transaction kept by the retrieval filter has positive gas. -/
theorem validTx_gas_pos {tx : SwapTransaction} (h : validTx tx = true) :
    0 < tx.gas_used := by
  simp [validTx] at h
  tauto

/-- C5: Transaction Retrieval's output contains only records passing the
validation filter (hash and both token symbols present, positive amounts and
positive gas), is sorted non-increasing by timestamp, preserves provider
order on timestamp ties (stability), and contains exactly the valid provider
records. -/
theorem c5_retrieval_filter_and_sort (l : List SwapTransaction) :
    (∀ tx ∈ getUserTransactions l, validTx tx = true)
    ∧ (getUserTransactions l).Pairwise (fun a b => b.timestamp ≤ a.timestamp)
    ∧ (∀ t : ℤ, (getUserTransactions l).filter (fun tx => tx.timestamp == t)
        = (l.filter validTx).filter (fun tx => tx.timestamp == t))
    ∧ (∀ tx : SwapTransaction, tx ∈ getUserTransactions l ↔ tx ∈ l.filter validTx) := by
  refine ⟨?_, ?_, ?_, ?_⟩
  · intro tx hmem
    exact List.of_mem_filter ((mem_sortByKeyDesc _ _ _).mp hmem)
  · exact pairwise_sortByKeyDesc _ _
  · intro t
    exact filter_sortByKeyDesc _ _ t
  · intro tx
    exact mem_sortByKeyDesc _ _ tx

/-- Witness for C5: the example transaction survives retrieval on a concrete
one-element history, and the theorem certifies it valid. -/
theorem c5_retrieval_witness : validTx exampleTx = true :=
  (c5_retrieval_filter_and_sort [exampleTx]).1 exampleTx
    (((c5_retrieval_filter_and_sort [exampleTx]).2.2.2 exampleTx).mpr
      (by simp [validTx, exampleTx, List.filter_cons]))

/-- C9: a nonempty retrieval output has a positive total of gas units, so
the report's mean gas price `totalGasSpent ÷ Σ gas_used` is formed with a
nonzero denominator — the division-by-zero boundary is excluded by the
`gas_used > 0` filter. -/
theorem c9_mean_gas_price_denominator (l : List SwapTransaction)
    (h : getUserTransactions l ≠ []) :
    0 < ((getUserTransactions l).map (fun tx => tx.gas_used)).sum
    ∧ ((((((getUserTransactions l).map (fun tx => tx.gas_used)).sum : ℤ)) : ℚ) ≠ 0) := by
  have hpos : ∀ x ∈ (getUserTransactions l).map (fun tx => tx.gas_used), 0 < x := by
    intro x hx
    rcases List.mem_map.mp hx with ⟨tx, htx, rfl⟩
    exact validTx_gas_pos (List.of_mem_filter ((mem_sortByKeyDesc _ _ _).mp htx))
  have hne : (getUserTransactions l).map (fun tx => tx.gas_used) ≠ [] := by
    simpa using h
  have hsum := List.sum_pos _ hpos hne
  refine ⟨hsum, ?_⟩
  exact_mod_cast hsum.ne'

/-- Witness for C9 on a concrete one-element history. -/
theorem c9_mean_gas_price_witness :
    0 < ((getUserTransactions [exampleTx]).map (fun tx => tx.gas_used)).sum :=
  (c9_mean_gas_price_denominator [exampleTx]
    (by simp [getUserTransactions, validTx, exampleTx, List.filter_cons,
      sortByKeyDesc, insertByKeyDesc])).1

/-- Relating the negated success test to the `= none` test. -/
theorem not_isSome_eq_decide_none {α : Type} [DecidableEq α] (o : Option α) :
    (! o.isSome) = decide (o = none) := by
  cases o <;> simp

/-- C6: with five transactions all carrying token addresses and the quote
call failing for exactly one of the five positions, the comparison returns
four delta lines and a successful result — a single bad quote is caught and
never aborts the batch. -/
theorem c6_partial_failure_tolerance (w : String) (txs : List SwapTransaction)
    (quotes : ℕ → Option Quote)
    (h5 : txs.length = 5)
    (haddr : ∀ tx ∈ txs, tx.from_token_address ≠ "" ∧ tx.to_token_address ≠ "")
    (hfail : ((List.range 5).filter (fun j => quotes j = none)).length = 1) :
    (compareWithOneInch w txs quotes).detailedComparisons.length = 4
    ∧ (compareWithOneInch w txs quotes).success = true := by
  constructor
  · have hchar := (compareWithOneInch_spec w txs quotes).1
    rw [hchar, List.length_map, eligiblePairs_length quotes txs haddr 0]
    have hr : List.range' 0 txs.length = List.range 5 := by
      rw [h5, ← List.range_eq_range']
    rw [hr]
    have hsplit := length_filter_add_length_filter_neg
      (fun j => (quotes j).isSome) (List.range 5)
    have hcongr : (List.range 5).filter (fun j => ! (quotes j).isSome)
        = (List.range 5).filter (fun j => quotes j = none) :=
      List.filter_congr (fun a _ => not_isSome_eq_decide_none (quotes a))
    rw [hcongr, hfail] at hsplit
    simp only [List.length_range] at hsplit
    omega
  · unfold compareWithOneInch
    split
    · simp [emptyComparisonResult]
    · rfl

/-- Concrete five-transaction batch for the C6 witness. -/
def fiveTxs : List SwapTransaction :=
  [exampleTx, exampleTx, exampleTx, exampleTx, exampleTx]

/-- Quote stream failing exactly at position 2. -/
def failingQuotes : ℕ → Option Quote :=
  fun i => if i = 2 then none else some exampleQuote

/-- Witness for C6: five example transactions, quote 2 fails, four delta
lines survive. -/
theorem c6_partial_failure_witness :
    (compareWithOneInch exampleWallet fiveTxs failingQuotes).detailedComparisons.length = 4
    ∧ (compareWithOneInch exampleWallet fiveTxs failingQuotes).success = true :=
  c6_partial_failure_tolerance exampleWallet fiveTxs failingQuotes rfl
    (by decide) (by decide)

/-- C7: the polling loop of the History Client checks the status at most 30
times at the fixed 2-second spacing (a 60000 ms ceiling); the first
non-pending status decides the outcome: completed returns the mapped rows,
failed errors immediately, and 30 consecutive pending statuses give the
timeout error after exactly 30 checks. -/
theorem c7_poll_bounded (f : ℕ → PollState) (now : ℤ) (rands : ℕ → ℚ) :
    (getDuneDataPoll f now rands).2 ≤ 30
    ∧ 2000 * (getDuneDataPoll f now rands).2 ≤ 60000
    ∧ (∀ (k : ℕ) (rows : List DuneRow), k < 30 →
        (∀ j, j < k → f j = .pending) → f k = .completed rows →
        getDuneDataPoll f now rands = (.ok (mapRows now rands rows), k + 1))
    ∧ (∀ k : ℕ, k < 30 → (∀ j, j < k → f j = .pending) → f k = .failed →
        getDuneDataPoll f now rands = (.queryFailed, k + 1))
    ∧ ((∀ j, j < 30 → f j = .pending) →
        getDuneDataPoll f now rands = (.queryTimeout, 30)) := by
  unfold getDuneDataPoll
  have hle := pollAux_checks_le f now rands 30 0
  refine ⟨by simpa using hle, by simp at hle ⊢; omega, ?_, ?_, ?_⟩
  · intro k rows hk hpend hc
    exact pollAux_completed f now rands 30 0 k rows (Nat.zero_le k) (by omega)
      (fun j _ hj => hpend j hj) hc
  · intro k hk hpend hc
    exact pollAux_failed f now rands 30 0 k (Nat.zero_le k) (by omega)
      (fun j _ hj => hpend j hj) hc
  · intro hpend
    have ht := pollAux_timeout f now rands 30 0 (fun j _ hj => hpend j (by omega))
    simpa using ht

/-- Status script completing at the third check, for the C7 witness. -/
def pollScript : ℕ → PollState :=
  fun j => if j = 2 then .completed [] else .pending

/-- Witness for C7: two pending responses then a completed one give the
mapped (empty) row set after exactly 3 of the at most 30 checks. -/
theorem c7_poll_witness :
    getDuneDataPoll pollScript 0 (fun _ => 0) = (.ok [], 3) := by
  have h := (c7_poll_bounded pollScript 0 (fun _ => 0)).2.2.1 2 []
    (by omega) (by decide) (by decide)
  simpa [mapRows, mapRowsFrom] using h

/-- A copy of the example transaction whose source amount is zero: dropped
by Transaction Retrieval, yet still carrying both token addresses. -/
def zeroAmountTx : SwapTransaction :=
  { exampleTx with from_amount := 0 }

/-- C8 counterexample: the Comparison Engine refetches history directly via
`getDuneData` instead of consuming Transaction Retrieval's output, so a
transaction with a non-positive source amount — which retrieval discards —
is still compared and its gas (5000000) accumulated into the totals. -/
theorem c8_counterexample :
    getUserTransactions [zeroAmountTx] = []
    ∧ (compareWithOneInch exampleWallet [zeroAmountTx] exampleQuotes).totalActualGas
        = 5000000
    ∧ (compareWithOneInch exampleWallet [zeroAmountTx]
        exampleQuotes).detailedComparisons.length = 1 := by
  refine ⟨?_, ?_, ?_⟩
  · simp [getUserTransactions, validTx, zeroAmountTx, exampleTx, List.filter_cons,
      sortByKeyDesc]
  · simp [compareWithOneInch, compareLoop, compareStep, initCompareState,
      zeroAmountTx, exampleTx, exampleQuote, exampleQuotes, mkComparisonRecord,
      exampleWallet]
    norm_num
  · simp [compareWithOneInch, compareLoop, compareStep, initCompareState,
      zeroAmountTx, exampleTx, exampleQuote, exampleQuotes, mkComparisonRecord,
      exampleWallet]

/-- C8 (amended): the Comparison Engine operates on the raw history fetch
(`getDuneData(walletAddress, 10)`), not on Transaction Retrieval's
validated, sorted output: its delta lines and gas totals range over exactly
the fetched transactions minus those lacking a token address or whose quote
call failed — no amount/gas positivity filtering is applied. -/
theorem c8_comparison_reads_raw_history (w : String) (txs : List SwapTransaction)
    (quotes : ℕ → Option Quote) :
    (compareWithOneInch w txs quotes).detailedComparisons
      = (eligiblePairs quotes txs 0).map (fun p => mkComparisonRecord p.1 p.2)
    ∧ (compareWithOneInch w txs quotes).totalActualGas
      = ((eligiblePairs quotes txs 0).map
          (fun p => (p.1.gas_used : ℚ) * p.1.gas_price)).sum
    ∧ (compareWithOneInch w txs quotes).totalOptimalGas
      = ((eligiblePairs quotes txs 0).map
          (fun p => (p.2.estimatedGas : ℚ) * p.1.gas_price)).sum :=
  compareWithOneInch_spec w txs quotes

/-- One provider row with every field present, used by the C2
counterexample. -/
def exampleRow : DuneRow :=
  { tx_hash := some "0xh1", block_time := some 0
    token_sold_symbol := some "AAA", token_bought_symbol := some "BBB"
    token_sold_address := some "0xa", token_bought_address := some "0xb"
    token_sold_amount := some 1, token_bought_amount := some 1
    amount_usd := some 10, gas_used := some 100, gas_price := some 1
    project := some "X" }

/-- C2 counterexample: two invocations of `generate_swap_report` over the
identical upstream snapshot (same rows, same quotes, same prices, same
clock) differ in the summary block, because `calculateSlippage` draws
`Math.random()`: with draw 0 the efficiency score is 100, with draw 1/2 the
derived 1% mean slippage costs 10 points and the score is 90. -/
theorem c2_counterexample :
    (generateSwapReport exampleWallet [exampleRow] [exampleRow] (fun _ => 0)
        (fun _ => 0) exampleQuotes (fun _ => 0) 0 0).summary
    ≠ (generateSwapReport exampleWallet [exampleRow] [exampleRow] (fun _ => 0)
        (fun _ => (1 : ℚ)/2) exampleQuotes (fun _ => 0) 0 0).summary := by
  have h1 : (generateSwapReport exampleWallet [exampleRow] [exampleRow] (fun _ => 0)
      (fun _ => 0) exampleQuotes (fun _ => 0) 0 0).summary.efficiencyScore = 100 := by
    simp [generateSwapReport, getUserTransactions, mapRows, mapRowsFrom, mapRow,
      jsOrStr, calculateSlippage, round2, roundJS, validTx, sortByKeyDesc,
      insertByKeyDesc, compareWithOneInch, compareLoop, compareStep,
      mkComparisonRecord, initCompareState, optimalRouteOf, calculateEfficiencyScore,
      strIncludes, containsChars, startsWithChars, memStr, distinctCount,
      exampleRow, exampleWallet, exampleQuote, exampleQuotes, List.filter_cons]
    norm_num [max_def, min_def]
  have h2 : (generateSwapReport exampleWallet [exampleRow] [exampleRow] (fun _ => 0)
      (fun _ => (1 : ℚ)/2) exampleQuotes (fun _ => 0) 0 0).summary.efficiencyScore = 90 := by
    simp [generateSwapReport, getUserTransactions, mapRows, mapRowsFrom, mapRow,
      jsOrStr, calculateSlippage, round2, roundJS, validTx, sortByKeyDesc,
      insertByKeyDesc, compareWithOneInch, compareLoop, compareStep,
      mkComparisonRecord, initCompareState, optimalRouteOf, calculateEfficiencyScore,
      strIncludes, containsChars, startsWithChars, memStr, distinctCount,
      exampleRow, exampleWallet, exampleQuote, exampleQuotes, List.filter_cons]
    norm_num [max_def, min_def]
  intro heq
  rw [heq] at h1
  exact absurd (h1.symm.trans h2) (by decide)

/-- C2 (amended): with the upstream snapshot and the hidden `Math.random()`
slippage draws both held fixed, the report's summary, gas-analysis and
routing-analysis blocks are a deterministic function of that data — in
particular they do not depend on the report-generation timestamp. -/
theorem c2_report_blocks_deterministic (wallet : String) (rows50 rows10 : List DuneRow)
    (rands50 rands10 : ℕ → ℚ) (quotes : ℕ → Option Quote) (price : String → ℚ)
    (now t1 t2 : ℤ) :
    (generateSwapReport wallet rows50 rows10 rands50 rands10 quotes price now t1).summary
      = (generateSwapReport wallet rows50 rows10 rands50 rands10 quotes price now t2).summary
    ∧ (generateSwapReport wallet rows50 rows10 rands50 rands10 quotes price now t1).gasAnalysis
      = (generateSwapReport wallet rows50 rows10 rands50 rands10 quotes price now t2).gasAnalysis
    ∧ (generateSwapReport wallet rows50 rows10 rands50 rands10 quotes price now t1).routingAnalysis
      = (generateSwapReport wallet rows50 rows10 rands50 rands10 quotes price now t2).routingAnalysis := by
  by_cases h : (getUserTransactions (mapRows now rands50 rows50)).length = 0
  · simp [generateSwapReport, h, emptySwapReport]
  · simp [generateSwapReport, h]

/-- The Uniswap-upgrade line appears in the comparison recommendations
exactly when the most-used-venue entry names `"Uniswap V2"`. -/
theorem upgrade_mem_iff (txs : List SwapTransaction) (gs tg as : ℚ)
    (cs : List DetailedComparison) :
    Reco.upgradeUniswapV3 ∈ generateRecommendations txs gs tg as cs
      ↔ ∃ n : ℕ, mostUsedDexEntry txs = some ("Uniswap V2", n) := by
  unfold generateRecommendations
  rcases hm : mostUsedDexEntry txs with _ | ⟨d, n⟩
  · simp only [hm]
    split_ifs <;> simp
  · simp only [hm]
    by_cases hd : d = "Uniswap V2"
    · subst hd
      split_ifs <;> simp_all
    · split_ifs <;> simp_all

/-- C10 (amended): the recommendation algorithm is a deterministic function
of the transaction list and the aggregated statistics; the most-frequent
venue is the first-encountered among those of maximal count (the stable-sort
tie-break), and the upgrade line is emitted exactly when that venue is
`"Uniswap V2"`. It is order-independent only up to that tie-break: any
permutation leaving the most-used-venue entry unchanged yields the identical
recommendation list. -/
theorem c10_recommendation_tiebreak (txs : List SwapTransaction)
    (gs tg as : ℚ) (cs : List DetailedComparison) :
    mostUsedDexEntry txs = firstMaxBy (fun p => ((p.2 : ℤ))) (dexTally txs)
    ∧ (Reco.upgradeUniswapV3 ∈ generateRecommendations txs gs tg as cs
        ↔ ∃ n : ℕ, firstMaxBy (fun p => ((p.2 : ℤ))) (dexTally txs)
            = some ("Uniswap V2", n))
    ∧ (∀ txs' : List SwapTransaction, txs.Perm txs' →
        mostUsedDexEntry txs = mostUsedDexEntry txs' →
        generateRecommendations txs gs tg as cs
          = generateRecommendations txs' gs tg as cs) := by
  have hhead : mostUsedDexEntry txs = firstMaxBy (fun p => ((p.2 : ℤ))) (dexTally txs) :=
    headOpt_sortByKeyDesc _ _
  refine ⟨hhead, ?_, ?_⟩
  · rw [← hhead]
    exact upgrade_mem_iff txs gs tg as cs
  · intro txs' hperm hmost
    unfold generateRecommendations
    rw [hmost, (hperm.filter (fun tx => 1000 < tx.usd_value.getD 0)).length_eq]

/-- The example transaction rebranded to the two venues of the C10 tie. -/
def uniTx : SwapTransaction := { exampleTx with dex := "Uniswap V2" }

/-- A SushiSwap copy of the example transaction. -/
def sushiTx : SwapTransaction := { exampleTx with dex := "SushiSwap" }

/-- C10 counterexample: two orderings of the same two transactions (venue
counts tied 1–1, identical quote outcomes and aggregates) produce different
recommendation lists — the upgrade line follows the first-encountered
venue, so the algorithm is not order-independent. -/
theorem c10_counterexample :
    ([uniTx, sushiTx] : List SwapTransaction).Perm [sushiTx, uniTx]
    ∧ generateRecommendations [uniTx, sushiTx] 0 0 0 []
      ≠ generateRecommendations [sushiTx, uniTx] 0 0 0 [] := by
  constructor
  · exact List.Perm.swap sushiTx uniTx []
  · simp [generateRecommendations, mostUsedDexEntry, dexTally, bumpTally,
      sortByKeyDesc, insertByKeyDesc, uniTx, sushiTx, exampleTx]

/-- Three transactions with an untied venue tally, and a permutation. -/
def threeTxs : List SwapTransaction := [uniTx, uniTx, sushiTx]

/-- A permutation of `threeTxs` with the same most-used venue. -/
def threeTxsPerm : List SwapTransaction := [uniTx, sushiTx, uniTx]

/-- Witness for C10 (amended): a concrete permutation that preserves the
most-used-venue entry yields the identical recommendation list. -/
theorem c10_recommendation_witness :
    generateRecommendations threeTxs 0 0 0 []
      = generateRecommendations threeTxsPerm 0 0 0 [] :=
  (c10_recommendation_tiebreak threeTxs 0 0 0 []).2.2 threeTxsPerm
    (List.Perm.cons uniTx (List.Perm.swap sushiTx uniTx []))
    (by decide)
